import Mathlib

/-!
# Verification of the jarvis-ai-assistant calendar sync subsystem

Shallow embedding of the calendar synchronization core of the repository
(`src/calendar_microservice/src/sync/controller.py`,
`src/calendar_microservice/src/sync/architecture.py`,
`src/calendar_microservice/src/sync/storage.py`,
`src/calendar_microservice/src/services/google_calendar.py`,
`src/calendar_microservice/src/services/microsoft_calendar.py`,
`src/calendar_microservice/src/services/unified_calendar.py`).

Modelling conventions:
* `datetime` instants are integers (seconds); `datetime.min` is modelled by the
  fallback used in `_resolve_conflict`.
* Python dictionaries holding string keys are association lists with
  last-writer-wins insertion (`dictSet`).
* `async` functions that can raise are total Lean functions returning
  `Except String _` (the error carries the exception message); storage reads and
  writes are explicit state passing over `SyncStore`.
* External provider calls (Google/Microsoft HTTP requests) are oracles passed
  in as function arguments; where the controller logs a provider call we track
  the trace of oracle invocations.
* pydantic models are structures whose fields are exactly the declared fields
  of the Python model.  Reading an attribute that the model does not declare
  raises `AttributeError` in pydantic (v2, default config); such reads are
  modelled as `Except.error` values.
-/

namespace JarvisSync

/-! ## Normalized event model (services/calendar_event.py) -/

/-- `CalendarProvider` enum (calendar_event.py 7-12). -/
inductive CalendarProvider where
  | google
  | microsoft
  | apple
  | exchange
deriving DecidableEq, Repr

/-- The `str` value of a `CalendarProvider` member (it is a `str` Enum). -/
def CalendarProvider.value : CalendarProvider → String
  | .google => "google"
  | .microsoft => "microsoft"
  | .apple => "apple"
  | .exchange => "exchange"

/-- `EventParticipant` (calendar_event.py 15-19). -/
structure EventParticipant where
  email : Option String := none
  name : Option String := none
  response_status : Option String := none
deriving DecidableEq, Repr

/-- `CalendarEvent` (calendar_event.py 56-80), the normalized event model.
Instants are integer timestamps (seconds). -/
structure CalendarEvent where
  id : String
  provider : CalendarProvider
  provider_id : String
  title : String
  description : Option String := none
  location : Option String := none
  start_time : Int
  end_time : Int
  all_day : Bool := false
  organizer : Option EventParticipant := none
  participants : List EventParticipant := []
  recurring : Bool := false
  recurrence_pattern : Option String := none
  calendar_id : String
  calendar_name : Option String := none
  link : Option String := none
  private_event : Bool := false
  event_status : Option String := none
  created_at : Option Int := none
  updated_at : Option Int := none
  last_synced : Int := 0
deriving DecidableEq, Repr

/-! ## Sync architecture types (sync/architecture.py) -/

/-- `SyncDirection` enum (architecture.py 46-50). -/
inductive SyncDirection where
  | read_only
  | write_only
  | bidirectional
deriving DecidableEq, Repr

/-- `SyncFrequency` enum (architecture.py 52-57). -/
inductive SyncFrequency where
  | real_time
  | hourly
  | daily
  | manual
deriving DecidableEq, Repr

/-- `SyncMethod` enum (architecture.py 59-64). -/
inductive SyncMethod where
  | api
  | agent
  | file
  | email
deriving DecidableEq, Repr

/-- `ConflictResolution` enum (architecture.py 66-71). -/
inductive ConflictResolution where
  | source_wins
  | destination_wins
  | latest_wins
  | manual
deriving DecidableEq, Repr

/-- `SyncSource` (architecture.py 73-86).  The opaque `connection_info` and
`credentials` payloads are never inspected by the sync core (they are passed
verbatim to provider oracles), so they are omitted from the embedding. -/
structure SyncSource where
  id : String
  name : String
  provider_type : String
  sync_direction : SyncDirection := .read_only
  sync_frequency : SyncFrequency := .hourly
  sync_method : SyncMethod := .api
  calendars : List String := []
  last_sync : Option Int := none
  sync_tokens : List (String × String) := []
  enabled : Bool := true
deriving DecidableEq, Repr

/-- `SyncDestination` (architecture.py 88-97).  Note: the pydantic model
declares exactly these fields — in particular it declares **no**
`color_management` and **no** `source_calendars` field, although
controller.py 106/110/114/412/414 read those attributes. -/
structure SyncDestination where
  id : String
  name : String
  provider_type : String
  calendar_id : String
  conflict_resolution : ConflictResolution := .latest_wins
  categories : List (String × String) := []
deriving DecidableEq, Repr

/-- `SyncAgentConfig` (architecture.py 99-113).  Connection coordinates
(`api_endpoint`, `file_path`, `email_address`, `auth_token`) are opaque to the
heartbeat logic and omitted. -/
structure SyncAgentConfig where
  id : String
  name : String
  environment : String
  agent_type : String
  sources : List SyncSource := []
  communication_method : SyncMethod
  interval_minutes : Int := 60
  last_check_in : Option Int := none
  enabled : Bool := true
deriving DecidableEq, Repr

/-- `SyncConfiguration` (architecture.py 115-120).  `destination` is a
**required** pydantic field: a configuration without a destination cannot be
constructed or parsed. -/
structure SyncConfiguration where
  sources : List SyncSource := []
  destination : SyncDestination
  agents : List SyncAgentConfig := []
deriving DecidableEq, Repr

/-- The stored configuration document, as a raw dict: the `destination` key may
be absent.  `SyncConfiguration.parse_obj` validates such a document. -/
structure SyncConfigDoc where
  sources : List SyncSource := []
  destination : Option SyncDestination := none
  agents : List SyncAgentConfig := []
deriving DecidableEq, Repr

/-- `SyncConfiguration.parse_obj` (pydantic validation): fails when the
required `destination` field is absent.  In particular `SyncConfiguration()`
— the empty document — raises a validation error. -/
def parseSyncConfiguration (doc : SyncConfigDoc) : Except String SyncConfiguration :=
  match doc.destination with
  | none => .error "validation error for SyncConfiguration: destination field required"
  | some d => .ok { sources := doc.sources, destination := d, agents := doc.agents }

/-- `SyncConfiguration.dict()`: the document written back to storage by
`save_configuration` (controller.py 45-47). -/
def dumpConfiguration (c : SyncConfiguration) : SyncConfigDoc :=
  { sources := c.sources, destination := some c.destination, agents := c.agents }

/-! ## Python dict helpers -/

/-- `d.get(k)` on a Python dict with string keys. -/
def dictGet {α : Type} (d : List (String × α)) (k : String) : Option α :=
  (d.find? (fun p => p.1 = k)).map (fun p => p.2)

/-- `d[k] = v` on a Python dict: overwrite in place if the key exists,
otherwise append (insertion order is preserved). -/
def dictSet {α : Type} (d : List (String × α)) (k : String) (v : α) : List (String × α) :=
  if (d.find? (fun p => p.1 = k)).isSome then
    d.map (fun p => if p.1 = k then (k, v) else p)
  else
    d ++ [(k, v)]

/-- Truthiness of an `Optional[str]`: `None` and the empty string are falsy. -/
def strTruthy : Option String → Bool
  | none => false
  | some s => s ≠ ""

/-! ## Sync result records (the result dicts built by controller.py) -/

/-- The per-source result dict of `sync_single_source` (controller.py 259-267),
also used for the `"in_progress"` and `"skipped"` response dicts (fields absent
from a given dict keep their defaults). -/
structure SingleResult where
  source_id : Option String := none
  result_status : String
  message : Option String := none
  events_synced : Nat := 0
  events_failed : Nat := 0
  errors : List String := []
  start_time : Option Int := none
  end_time : Option Int := none
deriving DecidableEq, Repr

/-- The aggregate result dict of `sync_all_calendars` (controller.py 197-204),
also used for its `"in_progress"` response dict. -/
structure AggResult where
  result_status : String
  message : Option String := none
  sources_synced : Nat := 0
  events_synced : Nat := 0
  errors : List String := []
  start_time : Option Int := none
  end_time : Option Int := none
deriving DecidableEq, Repr

/-- The result dict of `_write_events_to_destination` (controller.py 404-408). -/
structure WriteResults where
  success_count : Nat := 0
  failure_count : Nat := 0
  errors : List String := []
deriving DecidableEq, Repr

/-! ## Storage manager (sync/storage.py)

The storage manager is a key-value store; both backends behave identically
from the caller's perspective, so it is modelled as one record of documents.
Histories are redis lists: `lpush` prepends and `ltrim` keeps a bounded
prefix. -/

structure SyncStore where
  /-- `sync:configuration`. -/
  config : Option SyncConfigDoc := none
  /-- `sync:agent:{id}:events` — cached agent event lists (stored payloads are
  already-normalized events; per-event `parse_obj` of a stored dump succeeds). -/
  agentEvents : List (String × List CalendarEvent) := []
  /-- `sync:import:{source_id}` — imported payloads, same convention. -/
  importData : List (String × List CalendarEvent) := []
  /-- `sync:latest_result`. -/
  latestResult : Option AggResult := none
  /-- `sync:history` (capped at 100, storage.py 133-139). -/
  history : List AggResult := []
  /-- `sync:source:{id}:latest_result`. -/
  sourceLatest : List (String × SingleResult) := []
  /-- `sync:source:{id}:history` (each capped at 50, storage.py 170-176). -/
  sourceHistory : List (String × List SingleResult) := []
deriving DecidableEq, Repr

/-- `save_sync_result` (storage.py 124-159): store latest, prepend to history,
trim to the most recent 100 entries. -/
def saveSyncResult (st : SyncStore) (r : AggResult) : SyncStore :=
  { st with latestResult := some r, history := (r :: st.history).take 100 }

/-- `save_source_sync_result` (storage.py 161-196): store the source's latest
result, prepend to the source's history, trim to the most recent 50. -/
def saveSourceSyncResult (st : SyncStore) (sid : String) (r : SingleResult) : SyncStore :=
  let hist := (dictGet st.sourceHistory sid).getD []
  { st with
      sourceLatest := dictSet st.sourceLatest sid r,
      sourceHistory := dictSet st.sourceHistory sid ((r :: hist).take 50) }

/-! ## Sync controller (sync/controller.py) -/

/-- `load_configuration` (controller.py 37-43): raises
`ValueError("No synchronization configuration found")` when no configuration
document is stored, otherwise parses the stored document. -/
def loadConfiguration (doc : Option SyncConfigDoc) : Except String SyncConfiguration :=
  match doc with
  | none => .error "No synchronization configuration found"
  | some d => parseSyncConfiguration d

/-- Reading `destination.color_management` (controller.py 106 and 412):
`SyncDestination` (architecture.py 88-97) declares no such field, so pydantic
raises `AttributeError`. -/
def colorManagementAttr (_ : SyncDestination) : Except String String :=
  .error "AttributeError: SyncDestination object has no attribute color_management"

/-- Reading `destination.source_calendars` (controller.py 110/114/412/414):
also not a declared field of `SyncDestination`. -/
def sourceCalendarsAttr (_ : SyncDestination) : Except String (List (String × String)) :=
  .error "AttributeError: SyncDestination object has no attribute source_calendars"

/-- `configure_destination` (controller.py 101-121).  The provisioning branch
at line 106 compares `destination.color_management` with
`"separate_calendar"`; the attribute read raises before any calendar is
created or the configuration is saved.  `createCal` is the oracle for
`_create_calendar_for_source` (an external provider call) — it is never
reached. -/
def configureDestination (createCal : SyncSource → Except String String)
    (store : SyncStore) (destination : SyncDestination) :
    Except String (SyncStore × SyncDestination) := do
  let config ← loadConfiguration store.config
  let cm ← colorManagementAttr destination
  -- unreachable from here on: `colorManagementAttr` always errors
  let _ ← if cm = "separate_calendar" then do
      let srcCals ← sourceCalendarsAttr destination
      (config.sources.filterM (fun s =>
        if s.enabled ∧ (dictGet srcCals s.id).isNone then
          (createCal s).map (fun _ => true)
        else pure false))
    else pure []
  let config2 := { config with destination := destination }
  .ok ({ store with config := some (dumpConfiguration config2) }, destination)

/-- `update_sync_source` applied to `config.sources`: replace the first source
whose id matches, or report that none matches (controller.py 69-83). -/
def replaceFirstSource (sources : List SyncSource) (sid : String)
    (upd : SyncSource → SyncSource) : Option (List SyncSource) :=
  match sources with
  | [] => none
  | s :: rest =>
    if s.id = sid then some (upd s :: rest)
    else (replaceFirstSource rest sid upd).map (fun l => s :: l)

/-- `update_sync_source` (controller.py 65-83): a full read-modify-write cycle —
it **reloads** the configuration from storage, applies the field updates dict
to the freshly loaded source, and saves.  The updates dict is modelled as the
record update `upd` it denotes.  Raises 404 when the source id is unknown. -/
def updateSyncSource (store : SyncStore) (sid : String) (upd : SyncSource → SyncSource) :
    Except String SyncStore := do
  let config ← loadConfiguration store.config
  match replaceFirstSource config.sources sid upd with
  | some sources2 =>
    .ok { store with config := some (dumpConfiguration { config with sources := sources2 }) }
  | none => .error ("404: Source with ID " ++ sid ++ " not found")

/-- `_resolve_conflict` (controller.py 497-524). `datetime.min` is the least
timestamp; with `Int` instants the fallback chain
`updated_at or created_at or datetime.min` is modelled by comparing the
optional instants under the same chain, where an absent value falls back to a
value no larger than every present one.  We keep it exact by comparing over
`Option Int` through `resolveTimestamp`. -/
def resolveTimestamp (updated_at created_at : Option Int) (dtMin : Int) : Int :=
  match updated_at with
  | some t => t
  | none =>
    match created_at with
    | some t => t
    | none => dtMin

/-- `_resolve_conflict` proper, parameterized by the `datetime.min` constant. -/
def resolveConflict (dtMin : Int) (source_event destination_event : CalendarEvent)
    (resolution_strategy : ConflictResolution) : CalendarEvent :=
  match resolution_strategy with
  | .source_wins => source_event
  | .destination_wins => destination_event
  | .latest_wins =>
    let source_updated := resolveTimestamp source_event.updated_at source_event.created_at dtMin
    let dest_updated := resolveTimestamp destination_event.updated_at destination_event.created_at dtMin
    if source_updated > dest_updated then source_event else destination_event
  | .manual => destination_event

/-- Oracles for the write phase of `_write_events_to_destination`:
the existing-events snapshot returned by `_get_existing_events`
(controller.py 418), and the success of `_update_event_in_destination` /
`_create_event_in_destination` (both catch their own exceptions and return a
boolean, controller.py 526-676). -/
structure WriteOracles where
  existing : List CalendarEvent
  updateOk : CalendarEvent → Bool
  createOk : CalendarEvent → Bool
  dtMin : Int

/-- The per-event loop of `_write_events_to_destination`
(controller.py 421-457), against the snapshot taken once at the start. -/
def processEvents (wr : WriteOracles) (events : List CalendarEvent)
    (destination : SyncDestination) (source : SyncSource) : WriteResults :=
  let existing_event_ids := wr.existing.map (fun e => e.id)
  events.foldl (fun results event =>
    if source.sync_direction = SyncDirection.write_only then results
    else if existing_event_ids.contains event.id then
      match wr.existing.find? (fun e => e.id = event.id) with
      | some existing_event =>
        let resolved_event := resolveConflict wr.dtMin event existing_event destination.conflict_resolution
        if resolved_event ≠ existing_event then
          if wr.updateOk resolved_event then
            { results with success_count := results.success_count + 1 }
          else
            { results with failure_count := results.failure_count + 1 }
        else results
      | none => results
    else
      if wr.createOk event then
        { results with success_count := results.success_count + 1 }
      else
        { results with failure_count := results.failure_count + 1 })
    { success_count := 0, failure_count := 0, errors := [] }

/-- `_write_events_to_destination` (controller.py 397-458).  Line 411 reads the
declared field `destination.calendar_id`; line 412 then reads
`destination.color_management`, which raises `AttributeError` before the
existing-events snapshot is taken or any event is processed. -/
def writeEventsToDestination (wr : WriteOracles) (events : List CalendarEvent)
    (destination : SyncDestination) (source : SyncSource) : Except String WriteResults := do
  let _target_calendar_id := destination.calendar_id
  let cm ← colorManagementAttr destination
  -- unreachable from here on: `colorManagementAttr` always errors
  let _ ← if cm = "separate_calendar" then sourceCalendarsAttr destination else pure []
  .ok (processEvents wr events destination source)

/-- The provider-service fetch oracle used by `_get_events_from_api_source`:
for a calendar id and the stored continuation token, either the fetched events
together with the next token, or the exception message of a failed call.  It
stands for `google_service.get_events` / `microsoft_service.get_events`
(controller.py 322-328 and 343-349). -/
def SvcFetch : Type := String → Option String → Except String (List CalendarEvent × Option String)

/-- `_get_events_from_api_source` (controller.py 308-359): for a Google or
Microsoft source, iterate the source's calendars; per calendar, fetch with the
stored token, extend the event list, and — when the call returns a truthy next
token — store it into the **in-memory** `source.sync_tokens` dict; per-calendar
failures are logged and skipped.  For any other provider type, no provider
call is made and the event list stays empty.  Returns the events and the
mutated in-memory source object. -/
def getEventsFromApiSource (fetch : SvcFetch) (source : SyncSource) :
    List CalendarEvent × SyncSource :=
  if source.provider_type = CalendarProvider.google.value
      ∨ source.provider_type = CalendarProvider.microsoft.value then
    source.calendars.foldl (fun acc calendar_id =>
      let (events, src) := acc
      let sync_token := dictGet src.sync_tokens calendar_id
      match fetch calendar_id sync_token with
      | .ok (newEvents, nextToken) =>
        let src2 :=
          if strTruthy nextToken then
            { src with sync_tokens := dictSet src.sync_tokens calendar_id (nextToken.getD "") }
          else src
        (events ++ newEvents, src2)
      | .error _ => (events, src))
      ([], source)
  else ([], source)

/-- The in-process controller state: the `active_syncs` set of running sync
unit identifiers (controller.py 35) plus the storage manager state. -/
structure SyncState where
  active : List String := []
  store : SyncStore := {}
deriving DecidableEq, Repr

/-- The `{"status": "in_progress", ...}` response of `sync_single_source`
(controller.py 237). -/
def inProgressSingle (sid : String) : SingleResult :=
  { result_status := "in_progress",
    message := some ("Sync for source " ++ sid ++ " already in progress") }

/-- The `{"status": "skipped", ...}` response (controller.py 252). -/
def skippedSingle : SingleResult :=
  { result_status := "skipped", message := some "Source is disabled" }

/-- The body of `sync_single_source` (controller.py 239-299): everything inside
the `try` after the unit was marked active.  `now` stands for
`datetime.utcnow()`.  Storage writes performed before an exception persist.

Notes tied to the source:
* the destination-configured check at line 255 can never fire, because
  `config.destination` is a required pydantic field and a model instance is
  always truthy;
* the `else: raise ValueError("Unsupported sync method ...")` at line 280 is
  dead because `SyncMethod` is a closed enum with all four members handled;
* line 290/291 persists **only** `last_sync` through `update_sync_source`,
  which reloads the configuration from storage — the `sync_tokens` mutated on
  the in-memory source object by `_get_events_from_api_source` are discarded. -/
def syncSingleSourceBody (fetch : SvcFetch) (wr : WriteOracles) (now : Int)
    (source_id : String) (store : SyncStore) : SyncStore × Except String SingleResult :=
  match loadConfiguration store.config with
  | .error e => (store, .error e)
  | .ok config =>
    match config.sources.find? (fun s => s.id = source_id) with
    | none => (store, .error ("Source with ID " ++ source_id ++ " not found"))
    | some source =>
      if ¬ source.enabled then (store, .ok skippedSingle)
      else
        let events_and_source :=
          match source.sync_method with
          | .api => getEventsFromApiSource fetch source
          | .agent => ((dictGet store.agentEvents source.id).getD [], source)
          | .file => ((dictGet store.importData source.id).getD [], source)
          | .email => ((dictGet store.importData source.id).getD [], source)
        let events := events_and_source.1
        let writeStep : Except String WriteResults :=
          if events.isEmpty then .ok {}
          else writeEventsToDestination wr events config.destination source
        match writeStep with
        | .error e => (store, .error e)
        | .ok write_results =>
          match updateSyncSource store source_id (fun s => { s with last_sync := some now }) with
          | .error e => (store, .error e)
          | .ok store1 =>
            let results : SingleResult :=
              { source_id := some source_id,
                result_status := "completed",
                events_synced := write_results.success_count,
                events_failed := write_results.failure_count,
                errors := write_results.errors,
                start_time := some now,
                end_time := some now }
            (saveSourceSyncResult store1 source_id results, .ok results)

/-- `sync_single_source` (controller.py 232-306): the in-progress guard, then
the `try/finally` that marks the unit active and always removes it again —
both on normal completion and when the body raises. -/
def syncSingleSource (fetch : SvcFetch) (wr : WriteOracles) (now : Int)
    (source_id : String) (st : SyncState) : SyncState × Except String SingleResult :=
  if source_id ∈ st.active then (st, .ok (inProgressSingle source_id))
  else
    let activeIn := source_id :: st.active
    let (store2, r) := syncSingleSourceBody fetch wr now source_id st.store
    ({ active := activeIn.erase source_id, store := store2 }, r)

/-- The `{"status": "in_progress", ...}` response of `sync_all_calendars`
(controller.py 184). -/
def inProgressAgg : AggResult :=
  { result_status := "in_progress", message := some "Sync already in progress" }

/-- The per-source loop of `sync_all_calendars` (controller.py 207-219):
disabled sources are skipped; each enabled source is synced through
`sync_single_source`, any exception being caught and recorded as an error
string in the aggregate result. -/
def syncAllLoop (fetch : SvcFetch) (wr : WriteOracles) (now : Int) :
    List SyncSource → SyncState → AggResult → SyncState × AggResult
  | [], st, results => (st, results)
  | source :: rest, st, results =>
    if ¬ source.enabled then syncAllLoop fetch wr now rest st results
    else
      let (st2, r) := syncSingleSource fetch wr now source.id st
      match r with
      | .ok source_result =>
        syncAllLoop fetch wr now rest st2
          { results with
              sources_synced := results.sources_synced + 1,
              events_synced := results.events_synced + source_result.events_synced }
      | .error e =>
        syncAllLoop fetch wr now rest st2
          { results with
              errors := results.errors ++ ["Error syncing source " ++ source.id ++ ": " ++ e] }

/-- `sync_all_calendars` (controller.py 179-230): the in-progress guard; load
the configuration (raising if absent); run every enabled source sequentially
with per-source exceptions caught into the errors list; stamp the end time;
persist the aggregate result; the `finally` always removes the `"sync_all"`
marker.  The destination check at line 193 can never fire (`destination` is a
required field, always truthy), so a stored configuration that parses cannot
fail it. -/
def syncAllCalendars (fetch : SvcFetch) (wr : WriteOracles) (now : Int)
    (st : SyncState) : SyncState × Except String AggResult :=
  if "sync_all" ∈ st.active then (st, .ok inProgressAgg)
  else
    let activeIn := "sync_all" :: st.active
    match loadConfiguration st.store.config with
    | .error e => ({ st with active := activeIn.erase "sync_all" }, .error e)
    | .ok config =>
      let results0 : AggResult := { result_status := "completed", start_time := some now }
      let (st2, results1) :=
        syncAllLoop fetch wr now config.sources { active := activeIn, store := st.store } results0
      let results2 := { results1 with end_time := some now }
      ({ active := st2.active.erase "sync_all", store := saveSyncResult st2.store results2 },
       .ok results2)

/-! ## Agent heartbeat liveness (controller.py 678-711) -/

/-- One value of the `agent_status` dict built by `check_agent_heartbeats`
(controller.py 700-704). -/
structure AgentStatusEntry where
  name : String
  agent_status : String
  last_check_in : Option Int := none
deriving DecidableEq, Repr

/-- The liveness test of `check_agent_heartbeats` (controller.py 694-697):
`is_active = False`; if the agent ever checked in, active iff the elapsed time
is strictly below `interval_minutes * 60 * 2` seconds. -/
def agentIsActive (now : Int) (agent : SyncAgentConfig) : Bool :=
  match agent.last_check_in with
  | none => false
  | some t => decide (now - t < agent.interval_minutes * 60 * 2)

/-- The `agent_status` entry recorded for one enabled agent. -/
def agentStatusEntry (now : Int) (agent : SyncAgentConfig) : AgentStatusEntry :=
  { name := agent.name,
    agent_status := if agentIsActive now agent then "active" else "inactive",
    last_check_in := agent.last_check_in }

/-- The result dict of `check_agent_heartbeats` (controller.py 682-687). -/
structure HeartbeatReport where
  total_agents : Nat
  active_agents : Nat := 0
  inactive_agents : Nat := 0
  agent_status : List (String × AgentStatusEntry) := []
deriving DecidableEq, Repr

/-- The loop body of `check_agent_heartbeats` (controller.py 689-709): skip
disabled agents; otherwise record the agent's `agent_status` entry and count
it as active or inactive. -/
def heartbeatStep (now : Int) (results : HeartbeatReport) (agent : SyncAgentConfig) :
    HeartbeatReport :=
  if ¬ agent.enabled then results
  else
    let entry := agentStatusEntry now agent
    let results2 := { results with agent_status := dictSet results.agent_status agent.id entry }
    if agentIsActive now agent then
      { results2 with active_agents := results2.active_agents + 1 }
    else
      { results2 with inactive_agents := results2.inactive_agents + 1 }

/-- `check_agent_heartbeats` (controller.py 678-711): load the configuration,
then run the loop over all agents. -/
def checkAgentHeartbeats (store : SyncStore) (now : Int) : Except String HeartbeatReport := do
  let config ← loadConfiguration store.config
  .ok (config.agents.foldl (heartbeatStep now) { total_agents := config.agents.length })

/-! ## Provider adapters (services/google_calendar.py, services/microsoft_calendar.py)

The raw provider HTTP exchange is an oracle `fetch` mapping the continuation
token being sent (or `none` for a full time-window query) to either the fetched
page or the exception raised.  Each adapter model also returns the trace of
oracle invocations, in order, so that "retries exactly once" is a statement
about the trace. -/

/-- One page returned by a provider fetch: normalized events plus the next
continuation token (`nextSyncToken` for Google, `deltaLink` for Microsoft),
if any. -/
structure ProviderPage where
  events : List CalendarEvent := []
  nextToken : Option String := none
deriving DecidableEq, Repr

/-- The exceptions `GoogleCalendarService.get_events` distinguishes:
`googleapiclient.errors.HttpError` carrying an HTTP status code, or any other
exception. -/
inductive GoogleExc where
  | http (statusCode : Nat) (msg : String)
  | other (msg : String)
deriving DecidableEq, Repr

/-- The predicate of Google's `retry_if_exception_type(HttpError)`
(google_calendar.py 58): only `HttpError` failures are retried by tenacity. -/
def isHttpError : GoogleExc → Bool
  | .http _ _ => true
  | .other _ => false

/-- The trace semantics of a tenacity `@retry(stop=stop_after_attempt(3),
reraise=True)` wrapper over a deterministic body: a successful body is one
attempt; a failure the retry predicate accepts is re-attempted until the stop
condition — three identical attempts in all, whose provider-call traces
accumulate — and the final exception is re-raised (`reraise=True`); a failure
the predicate rejects propagates after the single attempt. -/
def tenacityTrace {ε α β : Type} (attempts : Nat) (retryOn : ε → Bool)
    (r : Except ε α) (t : List β) : Except ε α × List β :=
  match r with
  | .ok a => (.ok a, t)
  | .error e =>
    if retryOn e then (.error e, (List.replicate attempts t).flatten)
    else (.error e, t)

/-- `GoogleCalendarService.get_events` (google_calendar.py 56-158), including
its tenacity decorator `@retry(stop=stop_after_attempt(3), wait=...,
retry=retry_if_exception_type(HttpError), reraise=True)` (lines 56-61).
The undecorated body performs the fetch with the given sync token; on an
`HttpError` with status 410 (Gone — sync token expired) while a truthy token
was sent, it falls back to calling `self.get_events` with `sync_token=None` —
which is the **decorated** method, so the token-free resync is itself retried
up to three times on `HttpError`; other failures are re-raised out of the
body, where the outer decorator retries `HttpError`s (re-running the whole
body, token-cleared fallback included) up to three attempts.  The second
component is the trace of tokens sent to the provider, in order. -/
def googleGetEvents (fetch : Option String → Except GoogleExc ProviderPage)
    (sync_token : Option String) : Except GoogleExc ProviderPage × List (Option String) :=
  let bodyNone : Except GoogleExc ProviderPage × List (Option String) :=
    match fetch none with
    | .ok page => (.ok page, [none])
    | .error e => (.error e, [none])
  let decoratedNone := tenacityTrace 3 isHttpError bodyNone.1 bodyNone.2
  let body : Except GoogleExc ProviderPage × List (Option String) :=
    match sync_token with
    | none => bodyNone
    | some s =>
      match fetch (some s) with
      | .ok page => (.ok page, [some s])
      | .error e =>
        match e with
        | .http code msg =>
          if code = 410 ∧ s ≠ "" then (decoratedNone.1, some s :: decoratedNone.2)
          else (.error (.http code msg), [some s])
        | .other msg => (.error (.other msg), [some s])
  tenacityTrace 3 isHttpError body.1 body.2

/-- `MicrosoftCalendarService.get_events` (microsoft_calendar.py 53-163).
Its tenacity decorator (lines 53-58) is, as written, a Python syntax error —
`retry_if_exception_type(Exception)` is a positional argument after keyword
arguments — so the module cannot even be imported; this embedding follows the
evident intent (the charitable repair `retry=retry_if_exception_type(
Exception)`): any exception is retried, up to three attempts, re-raising.
The undecorated body's `except Exception` handler falls back to the
**decorated** `self.get_events` with `delta_link=None` whenever a truthy
delta link was in use, and re-raises otherwise; the exception payload is the
message string.  Second component: trace of delta links sent, in order. -/
def microsoftGetEvents (fetch : Option String → Except String ProviderPage)
    (delta_link : Option String) : Except String ProviderPage × List (Option String) :=
  let bodyNone : Except String ProviderPage × List (Option String) :=
    match fetch none with
    | .ok page => (.ok page, [none])
    | .error e => (.error e, [none])
  let decoratedNone := tenacityTrace 3 (fun _ => true) bodyNone.1 bodyNone.2
  let body : Except String ProviderPage × List (Option String) :=
    match delta_link with
    | none => bodyNone
    | some s =>
      match fetch (some s) with
      | .ok page => (.ok page, [some s])
      | .error e =>
        if s ≠ "" then (decoratedNone.1, some s :: decoratedNone.2)
        else (.error e, [some s])
  tenacityTrace 3 (fun _ => true) body.1 body.2

/-! ## Unified fetch layer (services/unified_calendar.py) -/

/-- The per-(provider, calendar) fetch oracle behind the `_get_*_events`
helpers of `UnifiedCalendarService`: given the provider value and calendar id,
either `(events, next token)` or the exception raised by the task. -/
def PairFetch : Type := String → String → Except String (List CalendarEvent × Option String)

/-- One task of `get_all_events`: a `_get_<provider>_events` helper
(unified_calendar.py 289-347).  Each helper wraps the adapter call in
`try/except` and, on failure, logs and returns the tuple
`(provider, calendar_id, [], None)` instead of raising. -/
def fetchTask (fetch : PairFetch) (pair : String × String) :
    String × String × List CalendarEvent × Option String :=
  match fetch pair.1 pair.2 with
  | .ok (events, tok) => (pair.1, pair.2, events, tok)
  | .error _ => (pair.1, pair.2, [], none)

/-- The merged result of `get_all_events` (unified_calendar.py 284-287):
the flat, start-time-sorted event list and the new token map keyed by
(provider, calendar). -/
structure AllEventsResult where
  events : List CalendarEvent
  syncTokens : List ((String × String) × String)
deriving DecidableEq, Repr

/-- The token-recording step of `get_all_events` (unified_calendar.py
277-279): `if sync_token: new_sync_tokens[provider][calendar_id] =
sync_token` — record the returned token under its (provider, calendar) key
only when it is truthy. -/
def tokenFoldStep (m : List ((String × String) × String))
    (r : String × String × List CalendarEvent × Option String) :
    List ((String × String) × String) :=
  match r.2.2.2 with
  | some t =>
    if t ≠ "" then
      if (m.find? (fun p => p.1 = (r.1, r.2.1))).isSome then
        m.map (fun p => if p.1 = (r.1, r.2.1) then ((r.1, r.2.1), t) else p)
      else m ++ [((r.1, r.2.1), t)]
    else m
  | none => m

/-- `get_all_events` (unified_calendar.py 116-287) over the (provider,
calendar) pairs selected from the credential and selection maps: run one task
per pair (`asyncio.gather` with `return_exceptions=True`; the helpers already
absorb their own exceptions), concatenate the events of the non-failed tasks,
record each truthy returned token under its provider and calendar, and sort
the merged list ascending by `start_time` (Python `list.sort` is stable;
`mergeSort` matches). -/
def getAllEvents (fetch : PairFetch) (pairs : List (String × String)) : AllEventsResult :=
  let results := pairs.map (fetchTask fetch)
  let all_events := results.foldl (fun acc r => acc ++ r.2.2.1) []
  let new_sync_tokens := results.foldl tokenFoldStep []
  { events := all_events.mergeSort (fun a b => decide (a.start_time ≤ b.start_time)),
    syncTokens := new_sync_tokens }

/-! ## Concrete fixtures used by witnesses and code-evaluation theorems -/

/-- A Google API source `A` with one calendar and no stored sync token. -/
def sourceA : SyncSource :=
  { id := "A", name := "Source A", provider_type := "google", calendars := ["cal1"] }

/-- A Google destination with a single default calendar. -/
def destMain : SyncDestination :=
  { id := "dest", name := "Destination", provider_type := "google", calendar_id := "primary" }

/-- A stored configuration document holding `sourceA` and `destMain`. -/
def docMain : SyncConfigDoc :=
  { sources := [sourceA], destination := some destMain }

/-- An event already present at the destination, last updated at instant 1000. -/
def eventOld : CalendarEvent :=
  { id := "google_e1", provider := .google, provider_id := "e1", title := "Team meeting",
    start_time := 100, end_time := 200, calendar_id := "primary", updated_at := some 1000 }

/-- The same event incoming from the source with a strictly newer `updated_at`. -/
def eventNew : CalendarEvent :=
  { eventOld with title := "Team meeting (moved)", updated_at := some 2000 }

/-- Write oracles: the destination snapshot holds `eventOld` and every
provider write succeeds. -/
def oraclesMain : WriteOracles :=
  { existing := [eventOld], updateOk := fun _ => true, createOk := fun _ => true, dtMin := 0 }

/-- A provider fetch that returns no events but a fresh continuation token
`T2` for calendar `cal1` (an incremental fetch with no changes). -/
def fetchTokenOnly : SvcFetch := fun calendar_id _ =>
  if calendar_id = "cal1" then .ok ([], some "T2") else .ok ([], none)

/-! ## Claim theorems -/

/-- C3 (code_bug): the claim says that when no configuration document is
present, loading yields an empty configuration (no sources, no agents, absent
destination) rather than failing, and that such a `SyncConfiguration` value is
constructible.  The code does neither: `load_configuration`
(controller.py 40-41) raises `ValueError("No synchronization configuration
found")` when storage is empty, and `destination` is a required field of
`SyncConfiguration` (architecture.py 118), so validating the empty document —
which is exactly what the fallback `SyncConfiguration()` in
sync_router.py 45 attempts, per its own comment "Return empty configuration
if none exists" — raises a validation error instead of producing a value. -/
theorem load_configuration_fails_without_stored_document :
    loadConfiguration none = Except.error "No synchronization configuration found"
    ∧ parseSyncConfiguration {} =
        Except.error "validation error for SyncConfiguration: destination field required" :=
  ⟨rfl, rfl⟩

/-- C2 (code_bug): the claim describes per-source destination calendar
provisioning and per-source write targets under the separate-calendar
strategy.  The code cannot perform either: `SyncDestination`
(architecture.py 88-97) declares neither `color_management` nor
`source_calendars`, so `configure_destination` raises `AttributeError` at
controller.py 106 on every call — before creating any calendar or saving the
configuration — even with a calendar-creation oracle that always succeeds. -/
theorem configure_destination_raises_attribute_error :
    configureDestination (fun _ => Except.ok "new-cal-id")
        { config := some docMain } destMain =
      Except.error "AttributeError: SyncDestination object has no attribute color_management" :=
  rfl

/-- C4 (code_bug): the claim describes conflict-resolution outcomes for
incoming events whose id is already present at the destination — in
particular, under `latest_wins` an incoming event with strictly greater
`updated_at` must produce an update call.  The code never reaches the
per-event loop: `_write_events_to_destination` reads
`destination.color_management` at controller.py 412, a field
`SyncDestination` does not declare, so every call raises `AttributeError`
before the existing-events snapshot is consulted and no update call is ever
issued.  Evaluated here on exactly the claim's scenario: `eventNew` has the
same id as `eventOld` with `updated_at` 2000 > 1000 and the destination uses
the default `latest_wins` strategy. -/
theorem write_phase_raises_before_conflict_resolution :
    destMain.conflict_resolution = ConflictResolution.latest_wins
    ∧ eventNew.id = eventOld.id
    ∧ eventNew.updated_at = some 2000
    ∧ eventOld.updated_at = some 1000
    ∧ writeEventsToDestination oraclesMain [eventNew] destMain sourceA =
        Except.error "AttributeError: SyncDestination object has no attribute color_management" :=
  ⟨rfl, rfl, rfl, rfl, rfl⟩

/-- C1 (code_bug): the claim says a successful `sync_single_source` call
persists both the source's updated `sync_tokens` and its new `last_sync`.
The code persists only `last_sync`: `_get_events_from_api_source` stores the
provider's new continuation token on the **in-memory** source object
(controller.py 332-333), but the persistence step at controller.py 291 goes
through `update_sync_source`, which **reloads** the configuration from
storage and applies only the `{"last_sync": ...}` update to the freshly
loaded copy — the token mutation is discarded.  Evaluated here: the provider
fetch returns continuation token `T2` for `cal1` and no events, the call
completes successfully, yet the stored configuration still has empty
`sync_tokens` for source `A` (and the updated `last_sync`, and one new
per-source history entry). -/
theorem sync_single_source_discards_new_sync_tokens :
    (syncSingleSource fetchTokenOnly oraclesMain 5000 "A"
        { store := { config := some docMain } }).2 =
      Except.ok { source_id := some "A", result_status := "completed",
                  start_time := some 5000, end_time := some 5000 }
    ∧ ((syncSingleSource fetchTokenOnly oraclesMain 5000 "A"
        { store := { config := some docMain } }).1.store.config).map
          (fun d => d.sources.map (fun s => (s.sync_tokens, s.last_sync))) =
        some [([], some 5000)]
    ∧ ((syncSingleSource fetchTokenOnly oraclesMain 5000 "A"
        { store := { config := some docMain } }).1.store.sourceHistory).map
          (fun p => (p.1, p.2.length)) = [("A", 1)] := by
  refine ⟨rfl, rfl, rfl⟩

/-- C7 (confirmed): when the unit is already marked active, both operations
return the `"in_progress"` response and leave the whole state (storage
included) untouched; the result is one fixed value for **every** fetch and
write oracle, so no configuration load, provider call, or storage write can
have occurred. -/
theorem in_progress_guard_short_circuits
    (fetch : SvcFetch) (wr : WriteOracles) (now : Int) (source_id : String) (st : SyncState)
    (h1 : source_id ∈ st.active) (h2 : "sync_all" ∈ st.active) :
    syncSingleSource fetch wr now source_id st = (st, Except.ok (inProgressSingle source_id))
    ∧ syncAllCalendars fetch wr now st = (st, Except.ok inProgressAgg) := by
  constructor
  · unfold syncSingleSource
    rw [if_pos h1]
  · unfold syncAllCalendars
    rw [if_pos h2]

/-- A state in which both the global unit and source `A` are marked active. -/
def stBusy : SyncState :=
  { active := ["sync_all", "A"], store := { config := some docMain } }

/-- Witness for C7 at a concrete busy state. -/
theorem in_progress_guard_short_circuits_witness :
    syncSingleSource fetchTokenOnly oraclesMain 0 "A" stBusy
        = (stBusy, Except.ok (inProgressSingle "A"))
    ∧ syncAllCalendars fetchTokenOnly oraclesMain 0 stBusy
        = (stBusy, Except.ok inProgressAgg) :=
  in_progress_guard_short_circuits fetchTokenOnly oraclesMain 0 "A" stBusy
    (by decide) (by decide)

/-- Helper: `sync_single_source` restores `active_syncs` on every path — the
guard path leaves the state alone, and the `try/finally` removes exactly the
marker it added. -/
theorem syncSingleSource_preserves_active (fetch : SvcFetch) (wr : WriteOracles)
    (now : Int) (source_id : String) (st : SyncState) :
    (syncSingleSource fetch wr now source_id st).1.active = st.active := by
  unfold syncSingleSource
  by_cases h : source_id ∈ st.active
  · rw [if_pos h]
  · rw [if_neg h]
    cases hb : syncSingleSourceBody fetch wr now source_id st.store with
    | mk store2 r => simp [List.erase_cons_head]

/-- Helper: the per-source loop of `sync_all_calendars` preserves
`active_syncs`. -/
theorem syncAllLoop_preserves_active (fetch : SvcFetch) (wr : WriteOracles) (now : Int) :
    ∀ (l : List SyncSource) (st : SyncState) (res : AggResult),
      (syncAllLoop fetch wr now l st res).1.active = st.active := by
  intro l
  induction l with
  | nil => intro st res; rfl
  | cons s rest ih =>
    intro st res
    simp only [syncAllLoop]
    by_cases hs : s.enabled
    · simp only [hs, not_true_eq_false, if_false]
      cases hr : syncSingleSource fetch wr now s.id st with
      | mk st2 r =>
        have hact : st2.active = st.active := by
          have := syncSingleSource_preserves_active fetch wr now s.id st
          rw [hr] at this
          exact this
        cases r with
        | ok source_result => rw [ih st2 _, hact]
        | error e => rw [ih st2 _, hact]
    · simp only [hs, not_false_eq_true, if_true]
      exact ih st res

/-- C10 (confirmed): every invocation that passes the in-progress guard
removes its unit marker when it terminates — the final `active_syncs` equals
the initial one on every path, including when the body raises (the result
component is universally quantified away: the equality holds whatever the
oracles produce), so a later call for the same unit is never spuriously
answered with `"in_progress"`. -/
theorem active_marker_always_removed (fetch : SvcFetch) (wr : WriteOracles)
    (now : Int) (source_id : String) (st : SyncState)
    (h1 : source_id ∉ st.active) (h2 : "sync_all" ∉ st.active) :
    ((syncSingleSource fetch wr now source_id st).1.active = st.active
      ∧ source_id ∉ (syncSingleSource fetch wr now source_id st).1.active)
    ∧ ((syncAllCalendars fetch wr now st).1.active = st.active
      ∧ "sync_all" ∉ (syncAllCalendars fetch wr now st).1.active) := by
  have hsingle := syncSingleSource_preserves_active fetch wr now source_id st
  have hall : (syncAllCalendars fetch wr now st).1.active = st.active := by
    unfold syncAllCalendars
    rw [if_neg h2]
    cases hload : loadConfiguration st.store.config with
    | error e => simp [List.erase_cons_head]
    | ok config =>
      cases hloop : syncAllLoop fetch wr now config.sources
          { active := "sync_all" :: st.active, store := st.store }
          { result_status := "completed", start_time := some now } with
      | mk st2 results1 =>
        have hact : st2.active = "sync_all" :: st.active := by
          have := syncAllLoop_preserves_active fetch wr now config.sources
            { active := "sync_all" :: st.active, store := st.store }
            { result_status := "completed", start_time := some now }
          rw [hloop] at this
          exact this
        dsimp only
        rw [hloop]
        simp [hact, List.erase_cons_head]
  exact ⟨⟨hsingle, by rw [hsingle]; exact h1⟩, ⟨hall, by rw [hall]; exact h2⟩⟩

/-- An idle state with a stored configuration. -/
def stIdle : SyncState := { store := { config := some docMain } }

/-- Witness for C10 at a concrete idle state. -/
theorem active_marker_always_removed_witness :
    ((syncSingleSource fetchTokenOnly oraclesMain 0 "A" stIdle).1.active = stIdle.active
      ∧ "A" ∉ (syncSingleSource fetchTokenOnly oraclesMain 0 "A" stIdle).1.active)
    ∧ ((syncAllCalendars fetchTokenOnly oraclesMain 0 stIdle).1.active = stIdle.active
      ∧ "sync_all" ∉ (syncAllCalendars fetchTokenOnly oraclesMain 0 stIdle).1.active) :=
  active_marker_always_removed fetchTokenOnly oraclesMain 0 "A" stIdle
    (by decide) (by decide)

/-- A Google provider that rejects every sync token as 410 Gone and fails the
token-free full resync with a retryable `HttpError` 500. -/
def gFetch500 : Option String → Except GoogleExc ProviderPage := fun t =>
  match t with
  | some _ => .error (.http 410 "Gone: sync token expired")
  | none => .error (.http 500 "internal server error")

/-- C6 counterexample: the claim — exactly one retry with the token cleared,
and no further retry when the token-free call also fails — is false of the
code.  The token-cleared fallback at google_calendar.py 144 calls the
tenacity-decorated `self.get_events`, and the decorator (lines 56-61) retries
`HttpError`s up to three attempts at both layers: when the full resync fails
with `HttpError` 500, the adapter makes nine token-cleared calls across three
outer attempts — each outer re-attempt sending the expired token again — not
one. -/
theorem expired_token_retry_counterexample :
    googleGetEvents gFetch500 (some "t")
        = (Except.error (.http 500 "internal server error"),
           [some "t", none, none, none, some "t", none, none, none,
            some "t", none, none, none])
    ∧ ¬ (googleGetEvents gFetch500 (some "t")).2 = [some "t", none]
    ∧ (googleGetEvents gFetch500 (some "t")).2.count none = 9 := by
  refine ⟨rfl, by decide, rfl⟩

/-- C6 (corrected): a provider rejection of a truthy continuation token —
Google detects it via `HttpError` 410 Gone, Microsoft via its catch-all
handler — triggers one token-cleared full-resync call per handler pass, and
the whole call makes exactly the two provider calls `[some tok, none]` when
the token-free call succeeds or (for Google) fails with a non-retryable,
non-`HttpError` exception.  But when the token-free call fails retryably
(`HttpError` for Google; any exception for Microsoft under its repaired
decorator), the tenacity layer (`stop_after_attempt(3)`, `reraise=True`)
retries it up to three times inside each attempt and re-attempts the whole
call — expired token included — up to three times, for at most twelve
provider calls in all: bounded, but not "exactly once".  A non-410 Google
`HttpError` with the token is retried as three token-bearing attempts, never
token-cleared. -/
theorem expired_token_retry_with_tenacity
    (gfetch : Option String → Except GoogleExc ProviderPage)
    (mfetch : Option String → Except String ProviderPage)
    (tok : String) (htok : tok ≠ "") :
    (∀ msg page, gfetch (some tok) = .error (.http 410 msg) → gfetch none = .ok page →
        googleGetEvents gfetch (some tok) = (.ok page, [some tok, none]))
    ∧ (∀ msg m, gfetch (some tok) = .error (.http 410 msg) → gfetch none = .error (.other m) →
        googleGetEvents gfetch (some tok) = (.error (.other m), [some tok, none]))
    ∧ (∀ msg code m, gfetch (some tok) = .error (.http 410 msg) →
        gfetch none = .error (.http code m) →
        googleGetEvents gfetch (some tok)
          = (.error (.http code m),
             [some tok, none, none, none, some tok, none, none, none,
              some tok, none, none, none]))
    ∧ (∀ code m, gfetch (some tok) = .error (.http code m) → code ≠ 410 →
        googleGetEvents gfetch (some tok)
          = (.error (.http code m), [some tok, some tok, some tok]))
    ∧ (∀ e page, mfetch (some tok) = .error e → mfetch none = .ok page →
        microsoftGetEvents mfetch (some tok) = (.ok page, [some tok, none]))
    ∧ (∀ e e2, mfetch (some tok) = .error e → mfetch none = .error e2 →
        microsoftGetEvents mfetch (some tok)
          = (.error e2,
             [some tok, none, none, none, some tok, none, none, none,
              some tok, none, none, none])) := by
  refine ⟨?_, ?_, ?_, ?_, ?_, ?_⟩
  · intro msg page h1 h2
    simp [googleGetEvents, tenacityTrace, h1, h2, htok]
  · intro msg m h1 h2
    simp [googleGetEvents, tenacityTrace, isHttpError, h1, h2, htok]
  · intro msg code m h1 h2
    simp [googleGetEvents, tenacityTrace, isHttpError, h1, h2, htok, List.replicate,
      List.flatten]
  · intro code m h1 hcode
    simp [googleGetEvents, tenacityTrace, isHttpError, h1, hcode, List.replicate,
      List.flatten]
  · intro e page h1 h2
    simp [microsoftGetEvents, tenacityTrace, h1, h2, htok]
  · intro e e2 h1 h2
    simp [microsoftGetEvents, tenacityTrace, h1, h2, htok, List.replicate, List.flatten]

/-- A Google provider that rejects every sync token as 410 Gone and succeeds
on the token-free full resync. -/
def gFetchOkResync : Option String → Except GoogleExc ProviderPage := fun t =>
  match t with
  | some _ => .error (.http 410 "Gone: sync token expired")
  | none => .ok {}

/-- A Microsoft provider that rejects every delta link and succeeds on the
token-free full resync. -/
def mFetchOkResync : Option String → Except String ProviderPage := fun t =>
  match t with
  | some _ => .error "delta link invalid"
  | none => .ok {}

/-- Witness for the amended C6: when the token-free full resync succeeds,
both adapters make exactly the two calls `[some "t", none]` — one
token-cleared retry and nothing more. -/
theorem expired_token_retry_with_tenacity_witness :
    googleGetEvents gFetchOkResync (some "t") = (Except.ok {}, [some "t", none])
    ∧ microsoftGetEvents mFetchOkResync (some "t") = (Except.ok {}, [some "t", none]) := by
  have h := expired_token_retry_with_tenacity gFetchOkResync mFetchOkResync "t" (by decide)
  exact ⟨h.1 "Gone: sync token expired" {} rfl rfl,
         h.2.2.2.2.1 "delta link invalid" {} rfl rfl⟩

/-- Helper: `dictSet` appends when the key is not yet present. -/
theorem dictSet_of_find?_none {α : Type} (d : List (String × α)) (k : String) (v : α)
    (h : d.find? (fun p => p.1 = k) = none) : dictSet d k v = d ++ [(k, v)] := by
  unfold dictSet
  rw [h]
  rfl

/-- Helper: the heartbeat loop appends, in order, one `agent_status` entry per
enabled agent whose id is not already a key of the accumulator. -/
theorem heartbeat_fold_agent_status (now : Int) :
    ∀ (agents : List SyncAgentConfig) (acc : HeartbeatReport),
      (agents.map (fun a => a.id)).Nodup →
      (∀ a ∈ agents, acc.agent_status.find? (fun p => p.1 = a.id) = none) →
      (agents.foldl (heartbeatStep now) acc).agent_status
        = acc.agent_status
            ++ (agents.filter (fun a => a.enabled)).map (fun a => (a.id, agentStatusEntry now a)) := by
  intro agents
  induction agents with
  | nil => intro acc _ _; simp
  | cons a rest ih =>
    intro acc hnodup hdisj
    have hnodup' := hnodup
    rw [List.map_cons, List.nodup_cons] at hnodup'
    simp only [List.foldl_cons]
    by_cases ha : a.enabled
    · have hfind : acc.agent_status.find? (fun p => p.1 = a.id) = none :=
        hdisj a (List.mem_cons_self a rest)
      have hstep : (heartbeatStep now acc a).agent_status
          = acc.agent_status ++ [(a.id, agentStatusEntry now a)] := by
        unfold heartbeatStep
        rw [if_neg (by simp [ha])]
        by_cases hact : agentIsActive now a
        · rw [if_pos hact]
          exact dictSet_of_find?_none _ _ _ hfind
        · rw [if_neg hact]
          exact dictSet_of_find?_none _ _ _ hfind
      have hdisj2 : ∀ b ∈ rest,
          (heartbeatStep now acc a).agent_status.find? (fun p => p.1 = b.id) = none := by
        intro b hb
        rw [hstep, List.find?_append, hdisj b (List.mem_cons_of_mem a hb)]
        have hne : ¬ (a.id = b.id) := by
          intro hcontra
          exact hnodup'.1 (hcontra ▸ List.mem_map_of_mem (fun x => x.id) hb)
        simp [List.find?, hne]
      rw [ih (heartbeatStep now acc a) hnodup'.2 hdisj2, hstep]
      simp [List.filter_cons, ha, List.append_assoc]
    · have hstep : heartbeatStep now acc a = acc := by
        unfold heartbeatStep
        rw [if_pos (by simp [ha])]
      rw [hstep, ih acc hnodup'.2 (fun b hb => hdisj b (List.mem_cons_of_mem a hb))]
      simp [List.filter_cons, ha]

/-- C8 (confirmed): `check_agent_heartbeats` records one status entry per
enabled agent (in configuration order), and an agent's entry is `"active"`
exactly when it has checked in and the elapsed time since `last_check_in` is
strictly below `interval_minutes * 60 * 2` seconds; an enabled agent that has
never checked in is reported `"inactive"`. -/
theorem agent_heartbeat_liveness (store : SyncStore) (now : Int)
    (doc : SyncConfigDoc) (cfg : SyncConfiguration)
    (h1 : store.config = some doc) (h2 : parseSyncConfiguration doc = .ok cfg)
    (h3 : (cfg.agents.map (fun a => a.id)).Nodup) :
    (∀ report, checkAgentHeartbeats store now = Except.ok report →
        report.agent_status
          = (cfg.agents.filter (fun a => a.enabled)).map
              (fun a => (a.id, agentStatusEntry now a)))
    ∧ (checkAgentHeartbeats store now).isOk = true
    ∧ (∀ a : SyncAgentConfig,
        ((agentStatusEntry now a).agent_status = "active"
          ↔ ∃ t, a.last_check_in = some t ∧ now - t < a.interval_minutes * 60 * 2)
        ∧ (a.last_check_in = none → (agentStatusEntry now a).agent_status = "inactive")) := by
  have hrun : checkAgentHeartbeats store now
      = Except.ok (cfg.agents.foldl (heartbeatStep now) { total_agents := cfg.agents.length }) := by
    unfold checkAgentHeartbeats loadConfiguration
    rw [h1]
    simp only [h2]
    rfl
  refine ⟨?_, ?_, ?_⟩
  · intro report hrep
    rw [hrun] at hrep
    injection hrep with hrep
    rw [← hrep]
    have := heartbeat_fold_agent_status now cfg.agents
      { total_agents := cfg.agents.length } h3 (fun a _ => rfl)
    simpa using this
  · rw [hrun]; rfl
  · intro a
    constructor
    · unfold agentStatusEntry agentIsActive
      cases hlc : a.last_check_in with
      | none => simp
      | some t =>
        by_cases hc : now - t < a.interval_minutes * 60 * 2
        · simp [hc]
        · simp [hc]
    · intro hnone
      unfold agentStatusEntry agentIsActive
      rw [hnone]
      rfl

/-- An agent that checked in one second inside the 2× grace window
(interval 60 minutes, now = 10000, elapsed 7199 s < 7200 s). -/
def agentLive : SyncAgentConfig :=
  { id := "ag1", name := "Agent live", environment := "lab", agent_type := "python",
    communication_method := .api, interval_minutes := 60, last_check_in := some 2801 }

/-- An agent that checked in one second outside the window (elapsed 7201 s). -/
def agentStale : SyncAgentConfig :=
  { agentLive with id := "ag2", name := "Agent stale", last_check_in := some 2799 }

/-- An enabled agent that has never checked in. -/
def agentNever : SyncAgentConfig :=
  { agentLive with id := "ag3", name := "Agent never", last_check_in := none }

/-- A stored configuration document with the three agents. -/
def docAgents : SyncConfigDoc :=
  { destination := some destMain, agents := [agentLive, agentStale, agentNever] }

/-- The parsed form of `docAgents`. -/
def cfgAgents : SyncConfiguration :=
  { destination := destMain, agents := [agentLive, agentStale, agentNever] }

/-- Witness for C8, at the boundary instants of the spec's own test vector:
one second inside the window is active, one second outside is inactive, never
checked in is inactive. -/
theorem agent_heartbeat_liveness_witness :
    (checkAgentHeartbeats { config := some docAgents } 10000).isOk = true
    ∧ (agentStatusEntry 10000 agentLive).agent_status = "active"
    ∧ (agentStatusEntry 10000 agentStale).agent_status = "inactive"
    ∧ (agentStatusEntry 10000 agentNever).agent_status = "inactive" := by
  have h := agent_heartbeat_liveness { config := some docAgents } 10000 docAgents cfgAgents
    rfl rfl (by decide)
  refine ⟨h.2.1, ?_, rfl, (h.2.2 agentNever).2 rfl⟩
  exact ((h.2.2 agentLive).1).mpr ⟨2801, rfl, by decide⟩

/-- Helper: across the per-source loop of `sync_all_calendars`, every enabled
source contributes exactly one unit — either to `sources_synced` (its sync
returned) or to `errors` (its sync raised and the exception was caught) — and
the loop never touches `status` or `start_time`. -/
theorem syncAllLoop_counts (fetch : SvcFetch) (wr : WriteOracles) (now : Int) :
    ∀ (l : List SyncSource) (st : SyncState) (res : AggResult),
      ((syncAllLoop fetch wr now l st res).2.sources_synced
          + (syncAllLoop fetch wr now l st res).2.errors.length
        = res.sources_synced + res.errors.length + (l.filter (fun s => s.enabled)).length)
      ∧ (syncAllLoop fetch wr now l st res).2.result_status = res.result_status
      ∧ (syncAllLoop fetch wr now l st res).2.start_time = res.start_time := by
  intro l
  induction l with
  | nil => intro st res; exact ⟨by simp [syncAllLoop], rfl, rfl⟩
  | cons s rest ih =>
    intro st res
    simp only [syncAllLoop]
    by_cases hs : s.enabled
    · rw [if_neg (not_not_intro hs)]
      cases hr : syncSingleSource fetch wr now s.id st with
      | mk st2 r =>
        cases r with
        | ok source_result =>
          have h := ih st2
            { res with sources_synced := res.sources_synced + 1,
                       events_synced := res.events_synced + source_result.events_synced }
          refine ⟨?_, h.2.1, h.2.2⟩
          rw [h.1]
          simp [List.filter_cons, hs]
          omega
        | error e =>
          have h := ih st2
            { res with errors := res.errors
                ++ ["Error syncing source " ++ s.id ++ ": " ++ e] }
          refine ⟨?_, h.2.1, h.2.2⟩
          rw [h.1]
          simp [List.filter_cons, hs, List.length_append]
          omega
    · rw [if_pos hs]
      have h := ih st res
      refine ⟨?_, h.2.1, h.2.2⟩
      rw [h.1]
      simp [List.filter_cons, hs]

/-- C5 (confirmed): with a stored configuration (whose destination is a
required field, hence configured), `sync_all_calendars` never propagates an
exception from syncing an individual source — for **every** fetch and write
oracle the operation returns `ok`; the returned aggregate is persisted as the
latest result and as the newest history entry even when sources failed; each
enabled source is accounted exactly once between `sources_synced` and the
error-string list; and only a missing configuration makes the operation
itself fail. -/
theorem sync_all_absorbs_source_failures (fetch : SvcFetch) (wr : WriteOracles) (now : Int) :
    (∀ (st : SyncState) (doc : SyncConfigDoc) (cfg : SyncConfiguration),
      "sync_all" ∉ st.active → st.store.config = some doc →
      parseSyncConfiguration doc = Except.ok cfg →
        ((syncAllCalendars fetch wr now st).2.isOk = true
        ∧ ∀ agg, (syncAllCalendars fetch wr now st).2 = Except.ok agg →
            (syncAllCalendars fetch wr now st).1.store.latestResult = some agg
            ∧ (syncAllCalendars fetch wr now st).1.store.history.head? = some agg
            ∧ agg.sources_synced + agg.errors.length
                = (cfg.sources.filter (fun s => s.enabled)).length
            ∧ agg.result_status = "completed"
            ∧ agg.start_time = some now ∧ agg.end_time = some now))
    ∧ (∀ st : SyncState, "sync_all" ∉ st.active → st.store.config = none →
        (syncAllCalendars fetch wr now st).2
          = Except.error "No synchronization configuration found") := by
  constructor
  · intro st doc cfg hg hc hp
    have hload : loadConfiguration st.store.config = Except.ok cfg := by
      rw [hc]
      exact hp
    cases hloop : syncAllLoop fetch wr now cfg.sources
        { active := "sync_all" :: st.active, store := st.store }
        { result_status := "completed", start_time := some now } with
    | mk st2 results1 =>
      have hrun : syncAllCalendars fetch wr now st
          = ({ active := st2.active.erase "sync_all",
               store := saveSyncResult st2.store { results1 with end_time := some now } },
             Except.ok { results1 with end_time := some now }) := by
        unfold syncAllCalendars
        rw [if_neg hg, hload]
        dsimp only
        rw [hloop]
      have hcounts := syncAllLoop_counts fetch wr now cfg.sources
        { active := "sync_all" :: st.active, store := st.store }
        { result_status := "completed", start_time := some now }
      rw [hloop] at hcounts
      constructor
      · rw [hrun]; rfl
      · intro agg hagg
        rw [hrun] at hagg
        injection hagg with hagg
        rw [hrun, ← hagg]
        refine ⟨rfl, by simp [saveSyncResult], ?_, ?_, ?_, rfl⟩
        · simpa using hcounts.1
        · simpa using hcounts.2.1
        · simpa using hcounts.2.2
  · intro st hg hc
    unfold syncAllCalendars
    rw [if_neg hg, hc]
    rfl

/-- A second Google API source whose calendar fetch will return an event. -/
def sourceB : SyncSource :=
  { id := "B", name := "Source B", provider_type := "google", calendars := ["calX"] }

/-- A stored configuration with both sources. -/
def docTwo : SyncConfigDoc :=
  { sources := [sourceA, sourceB], destination := some destMain }

/-- The parsed form of `docTwo`. -/
def cfgTwo : SyncConfiguration :=
  { sources := [sourceA, sourceB], destination := destMain }

/-- A provider fetch under which source `A` finds no events (and a new token)
while source `B` finds one event — so `B`'s sync reaches the write phase and
raises, while `A`'s completes. -/
def fetchMixed : SvcFetch := fun calendar_id _ =>
  if calendar_id = "calX" then .ok ([eventNew], none) else .ok ([], some "T2")

/-- The initial state for the C5 witness run. -/
def stTwo : SyncState := { store := { config := some docTwo } }

/-- The aggregate result the C5 witness run produces: one source synced, one
absorbed failure, persisted with the run's timestamps. -/
def aggMixed : AggResult :=
  { result_status := "completed", sources_synced := 1, events_synced := 0,
    errors := ["Error syncing source B: AttributeError: SyncDestination object has no attribute color_management"],
    start_time := some 7, end_time := some 7 }

/-- Witness for C5: a concrete run in which source `B` fails mid-pass still
returns `ok`, records `B`'s failure as an error string, and persists the
aggregate to latest-result and history. -/
theorem sync_all_absorbs_source_failures_witness :
    (syncAllCalendars fetchMixed oraclesMain 7 stTwo).2 = Except.ok aggMixed
    ∧ (syncAllCalendars fetchMixed oraclesMain 7 stTwo).1.store.latestResult = some aggMixed
    ∧ (syncAllCalendars fetchMixed oraclesMain 7 stTwo).1.store.history.head? = some aggMixed
    ∧ aggMixed.sources_synced + aggMixed.errors.length
        = (cfgTwo.sources.filter (fun s => s.enabled)).length := by
  have h := (sync_all_absorbs_source_failures fetchMixed oraclesMain 7).1 stTwo docTwo cfgTwo
    (by decide) rfl rfl
  have hok : (syncAllCalendars fetchMixed oraclesMain 7 stTwo).2 = Except.ok aggMixed := rfl
  exact ⟨hok, (h.2 aggMixed hok).1, (h.2 aggMixed hok).2.1, (h.2 aggMixed hok).2.2.1⟩

/-- Helper: accumulating list appends in a fold flattens the mapped lists. -/
theorem foldl_append_eq_flatten {α β : Type} (f : α → List β) :
    ∀ (l : List α) (acc : List β),
      l.foldl (fun a r => a ++ f r) acc = acc ++ (l.map f).flatten := by
  intro l
  induction l with
  | nil => intro acc; simp
  | cons x rest ih => intro acc; simp [ih, List.append_assoc]

/-- Helper: the token-recording fold never creates an entry for a key all of
whose task results carried no truthy token. -/
theorem tokens_fold_no_entry (p c : String) :
    ∀ (results : List (String × String × List CalendarEvent × Option String))
      (m : List ((String × String) × String)),
      (∀ r ∈ results, (r.1, r.2.1) = (p, c) → strTruthy r.2.2.2 = false) →
      m.find? (fun e => e.1 = (p, c)) = none →
      (results.foldl tokenFoldStep m).find? (fun e => e.1 = (p, c)) = none := by
  intro results
  induction results with
  | nil => intro m _ hm; exact hm
  | cons r rest ih =>
    intro m hprem hm
    simp only [List.foldl_cons]
    apply ih _ (fun x hx hxeq => hprem x (List.mem_cons_of_mem r hx) hxeq)
    unfold tokenFoldStep
    cases htok : r.2.2.2 with
    | none => exact hm
    | some t =>
      dsimp only
      by_cases ht : t ≠ ""
      · rw [if_pos ht]
        by_cases hkey : (r.1, r.2.1) = (p, c)
        · have := hprem r (List.mem_cons_self r rest) hkey
          rw [htok] at this
          simp [strTruthy] at this
          exact absurd this ht
        · by_cases hpres : (m.find? (fun q => q.1 = (r.1, r.2.1))).isSome
          · rw [if_pos hpres]
            rw [List.find?_eq_none] at hm ⊢
            intro x hx
            obtain ⟨e, he, rfl⟩ := List.mem_map.mp hx
            by_cases h1 : e.1 = (r.1, r.2.1)
            · simp only [h1, if_pos]
              simp [hkey]
            · simp only [if_neg h1]
              have := hm e he
              simpa using this
          · rw [if_neg hpres]
            rw [List.find?_append, hm]
            simp [List.find?, hkey]
      · rw [if_neg ht]
        exact hm

/-- C9 (confirmed): in a multi-pair `get_all_events` fetch, a pair whose task
raises contributes an empty event list and gets no continuation-token entry;
the merged result is a permutation of the per-pair contributions (so all
events of the other pairs survive); and every event fetched by a successful
pair is present in the merged, sorted output.  The operation is total — no
exception reaches the caller by construction. -/
theorem unified_fetch_absorbs_task_failures
    (fetch : PairFetch) (pairs : List (String × String)) (p c msg : String)
    (hmem : (p, c) ∈ pairs) (herr : fetch p c = Except.error msg) :
    (fetchTask fetch (p, c)).2.2.1 = []
    ∧ List.Perm (getAllEvents fetch pairs).events
        ((pairs.map (fun pc => (fetchTask fetch pc).2.2.1)).flatten)
    ∧ (∀ q d evs tk, (q, d) ∈ pairs → fetch q d = Except.ok (evs, tk) →
        ∀ ev ∈ evs, ev ∈ (getAllEvents fetch pairs).events)
    ∧ (getAllEvents fetch pairs).syncTokens.find? (fun e => e.1 = (p, c)) = none := by
  have hcontrib : (fetchTask fetch (p, c)).2.2.1 = [] := by
    simp [fetchTask, herr]
  have hperm : List.Perm (getAllEvents fetch pairs).events
      ((pairs.map (fun pc => (fetchTask fetch pc).2.2.1)).flatten) := by
    unfold getAllEvents
    dsimp only
    rw [foldl_append_eq_flatten (fun r => r.2.2.1) (pairs.map (fetchTask fetch)) [],
      List.nil_append, List.map_map]
    exact List.mergeSort_perm _ _
  refine ⟨hcontrib, hperm, ?_, ?_⟩
  · intro q d evs tk hqd hok ev hev
    apply hperm.mem_iff.mpr
    rw [List.mem_flatten]
    refine ⟨evs, ?_, hev⟩
    have heq : (fetchTask fetch (q, d)).2.2.1 = evs := by simp [fetchTask, hok]
    rw [← heq]
    exact List.mem_map_of_mem (fun pc => (fetchTask fetch pc).2.2.1) hqd
  · show ((pairs.map (fetchTask fetch)).foldl tokenFoldStep []).find?
        (fun e => e.1 = (p, c)) = none
    apply tokens_fold_no_entry p c
    · intro r hr hkey
      obtain ⟨pc, hpc, rfl⟩ := List.mem_map.mp hr
      have hfst : ((fetchTask fetch pc).1, (fetchTask fetch pc).2.1) = pc := by
        unfold fetchTask
        cases fetch pc.1 pc.2 with
        | ok x => rfl
        | error e => rfl
      rw [hfst] at hkey
      rw [hkey] at hpc ⊢
      simp [fetchTask, herr, strTruthy]
    · rfl

/-- The three (provider, calendar) pairs of the C9 scenario. -/
def pairsW : List (String × String) := [("google", "c1"), ("google", "cX"), ("microsoft", "c2")]

/-- A fetch under which calendar `cX` raises while the other two calendars
return one event each, with continuation tokens. -/
def fetchPairs : PairFetch := fun provider calendar_id =>
  if calendar_id = "cX" then .error "provider adapter raised"
  else if provider = "google" then .ok ([eventOld], some "gtok")
  else .ok ([eventNew], some "mtok")

/-- Witness for C9 at the spec's own scenario: the failed calendar `cX`
contributes no events and no token, and the events of the other two calendars
are both present in the merged result. -/
theorem unified_fetch_absorbs_task_failures_witness :
    (fetchTask fetchPairs ("google", "cX")).2.2.1 = []
    ∧ eventOld ∈ (getAllEvents fetchPairs pairsW).events
    ∧ eventNew ∈ (getAllEvents fetchPairs pairsW).events
    ∧ (getAllEvents fetchPairs pairsW).syncTokens.find?
        (fun e => e.1 = ("google", "cX")) = none := by
  have h := unified_fetch_absorbs_task_failures fetchPairs pairsW "google" "cX"
    "provider adapter raised" (by decide) rfl
  refine ⟨h.1, ?_, ?_, h.2.2.2⟩
  · exact h.2.2.1 "google" "c1" [eventOld] (some "gtok") (by decide) rfl eventOld (by decide)
  · exact h.2.2.1 "microsoft" "c2" [eventNew] (some "mtok") (by decide) rfl eventNew (by decide)

end JarvisSync
